import Mathlib

/-!
Verification development for the Space-Orbit gravity simulation
(src/Space-Orbit_for_M5Stack.ino).  The source's doubles are modelled as
real numbers, the global std::vector containers as lists, and the global
moon position as explicit parameters.  Each definition below mirrors the
corresponding C++ function of the sketch.
-/

set_option maxHeartbeats 1000000

noncomputable section

namespace SpaceOrbit

/-- Constants of the sketch (lines 5-27). -/
def EARTH_RADIUS : ℝ := 15

/-- Moon radius in pixels (line 7). -/
def MOON_RADIUS : ℝ := 5

/-- Moon orbit radius in pixels (line 8). -/
def MOON_DISTANCE : ℝ := 100

/-- Moon angular velocity (line 9). -/
def MOON_ANGULAR_VELOCITY : ℝ := 0.005

/-- Orbit trail cap for a spacecraft (line 10). -/
def TRAIL_LENGTH : ℕ := 50

/-- Earth gravity constant (line 13). -/
def MU_EARTH : ℝ := 2500

/-- Moon gravity constant (line 14). -/
def MU_MOON : ℝ := 250

/-- Screen width (line 26). -/
def WIDTH : ℝ := 320

/-- Screen height (line 27). -/
def HEIGHT : ℝ := 240

/-- RGB565 packing used by M5.Lcd.color565: (r>>3)<<11 | (g>>2)<<5 | b>>3. -/
def color565 (r g b : ℕ) : ℕ := (r / 8) * 2048 + (g / 4) * 32 + b / 8

/-- Bound orbit color, color565(0,255,0) (line 19). -/
def BOUND_ORBIT_COLOR : ℕ := color565 0 255 0

/-- Escape orbit color, color565(0,255,255) (line 20). -/
def ESCAPE_ORBIT_COLOR : ℕ := color565 0 255 255

/-- 2D vector (lines 37-85). -/
@[ext]
structure Vector where
  x : ℝ
  y : ℝ

/-- Vector::add (line 74). -/
def Vector.add (vec1 vec2 : Vector) : Vector := ⟨vec1.x + vec2.x, vec1.y + vec2.y⟩

/-- Vector::sub (line 78). -/
def Vector.sub (vec1 vec2 : Vector) : Vector := ⟨vec1.x - vec2.x, vec1.y - vec2.y⟩

/-- Vector::mult (line 82). -/
def Vector.mult (vec : Vector) (scalar : ℝ) : Vector := ⟨vec.x * scalar, vec.y * scalar⟩

/-- Vector::mag (line 61). -/
def Vector.mag (v : Vector) : ℝ := Real.sqrt (v.x * v.x + v.y * v.y)

/-- Sparkle effect record (lines 95-98). -/
structure SparkleEffect where
  x : ℝ
  y : ℝ
  life : ℤ

/-- Explosion effect record (lines 101-106). -/
structure ExplosionEffect where
  x : ℝ
  y : ℝ
  size : ℤ
  life : ℤ
  alpha : ℝ

/-- Spacecraft state (lines 112-122). -/
structure Spacecraft where
  position : Vector
  velocity : Vector
  trail : List Vector
  energy : ℝ
  prevEnergy : ℝ
  sparkle : Bool

/-- Distance from the spacecraft's position to Earth's center (line 127). -/
def Spacecraft.distToEarth (s : Spacecraft) : ℝ :=
  Real.sqrt ((s.position.x - WIDTH / 2) ^ 2 + (s.position.y - HEIGHT / 2) ^ 2)

/-- Distance from the spacecraft's position to the Moon's center (line 143). -/
def Spacecraft.distToMoon (moonX moonY : ℝ) (s : Spacecraft) : ℝ :=
  Real.sqrt ((s.position.x - moonX) ^ 2 + (s.position.y - moonY) ^ 2)

/-- Spacecraft::calculateAcceleration (lines 227-241): combined gravity of
Earth and Moon at position pos. -/
def calculateAcceleration (moonX moonY : ℝ) (pos : Vector) : Vector :=
  let rEarth : Vector := ⟨WIDTH / 2 - pos.x, HEIGHT / 2 - pos.y⟩
  let rEarthMag := rEarth.mag
  let aEarth := Vector.mult rEarth (MU_EARTH / (rEarthMag * rEarthMag * rEarthMag))
  let rMoon : Vector := ⟨moonX - pos.x, moonY - pos.y⟩
  let rMoonMag := rMoon.mag
  let aMoon := Vector.mult rMoon (MU_MOON / (rMoonMag * rMoonMag * rMoonMag))
  Vector.add aEarth aMoon

/-- The RK4 integration block of Spacecraft::update (lines 161-197).
Returns the pair (new velocity, new position). -/
def Spacecraft.integrate (moonX moonY : ℝ) (s : Spacecraft) : Vector × Vector :=
  let k1v := calculateAcceleration moonX moonY s.position
  let k1r := Vector.mult s.velocity 1
  let tempPos := Vector.add s.position (Vector.mult k1r 0.5)
  let tempVel := Vector.add s.velocity (Vector.mult k1v 0.5)
  let k2v := calculateAcceleration moonX moonY tempPos
  let k2r := Vector.mult tempVel 1
  let tempPos2 := Vector.add s.position (Vector.mult k2r 0.5)
  let tempVel2 := Vector.add s.velocity (Vector.mult k2v 0.5)
  let k3v := calculateAcceleration moonX moonY tempPos2
  let k3r := Vector.mult tempVel2 1
  let tempPos3 := Vector.add s.position k3r
  let tempVel3 := Vector.add s.velocity k3v
  let k4v := calculateAcceleration moonX moonY tempPos3
  let k4r := Vector.mult tempVel3 1
  let dv := Vector.mult
    (Vector.add (Vector.add k1v (Vector.mult k2v 2)) (Vector.add (Vector.mult k3v 2) k4v))
    (1 / 6)
  let dr := Vector.mult
    (Vector.add (Vector.add k1r (Vector.mult k2r 2)) (Vector.add (Vector.mult k3r 2) k4r))
    (1 / 6)
  (Vector.add s.velocity dv, Vector.add s.position dr)

/-- Trail maintenance of Spacecraft::update (lines 199-203): push the new
position, evict the oldest point when the cap is exceeded. -/
def Spacecraft.trailNext (moonX moonY : ℝ) (s : Spacecraft) : List Vector :=
  let trail1 := s.trail ++ [(s.integrate moonX moonY).2]
  if trail1.length > TRAIL_LENGTH then trail1.tail else trail1

/-- Earth-centered specific orbital energy of the post-step state
(lines 205-208): 0.5*v*v - MU_EARTH/rE. -/
def Spacecraft.postEnergy (moonX moonY : ℝ) (s : Spacecraft) : ℝ :=
  let rE := Real.sqrt (((s.integrate moonX moonY).2.x - WIDTH / 2) ^ 2 +
    ((s.integrate moonX moonY).2.y - HEIGHT / 2) ^ 2)
  let v := (s.integrate moonX moonY).1.mag
  0.5 * v * v - MU_EARTH / rE

/-- Result of one Spacecraft::update call: the returned removal flag, the
craft's new state, and the global effect vectors after the call. -/
structure UpdateResult where
  removed : Bool
  craft : Spacecraft
  explosionEffects : List ExplosionEffect
  sparkleEffects : List SparkleEffect

/-- Spacecraft::update (lines 125-225).  The global effect containers are
passed in and returned; true means the craft is to be removed. -/
def Spacecraft.update (moonX moonY : ℝ) (explosionEffects : List ExplosionEffect)
    (sparkleEffects : List SparkleEffect) (s : Spacecraft) : UpdateResult :=
  if s.distToEarth ≤ EARTH_RADIUS then
    { removed := true, craft := s,
      explosionEffects :=
        explosionEffects ++ [⟨s.position.x, s.position.y, 15, 30, 255⟩],
      sparkleEffects := sparkleEffects }
  else if s.distToMoon moonX moonY ≤ MOON_RADIUS then
    { removed := true, craft := s,
      explosionEffects :=
        explosionEffects ++ [⟨s.position.x, s.position.y, 10, 30, 255⟩],
      sparkleEffects := sparkleEffects }
  else if s.postEnergy moonX moonY - s.energy > 0.1 then
    { removed := false,
      craft := { position := (s.integrate moonX moonY).2,
                 velocity := (s.integrate moonX moonY).1,
                 trail := s.trailNext moonX moonY,
                 energy := s.postEnergy moonX moonY,
                 prevEnergy := s.energy,
                 sparkle := true },
      explosionEffects := explosionEffects,
      sparkleEffects := sparkleEffects ++
        [⟨(s.integrate moonX moonY).2.x, (s.integrate moonX moonY).2.y, 20⟩] }
  else
    { removed := false,
      craft := { position := (s.integrate moonX moonY).2,
                 velocity := (s.integrate moonX moonY).1,
                 trail := s.trailNext moonX moonY,
                 energy := s.postEnergy moonX moonY,
                 prevEnergy := s.energy,
                 sparkle := false },
      explosionEffects := explosionEffects,
      sparkleEffects := sparkleEffects }

/-- Orbit color chosen in Spacecraft::draw (line 246): bound (green) when
energy is negative, escape (cyan) otherwise. -/
def Spacecraft.orbitColor (s : Spacecraft) : ℕ :=
  if s.energy < 0 then BOUND_ORBIT_COLOR else ESCAPE_ORBIT_COLOR

/-- The global containers touched by addSpacecraft plus the explosion list. -/
structure World where
  spacecrafts : List Spacecraft
  sparkleEffects : List SparkleEffect
  explosionEffects : List ExplosionEffect

/-- The spacecraft constructed by addSpacecraft (lines 285-298). -/
def spawnedCraft (x y : ℝ) : Spacecraft :=
  let dirX := x - WIDTH / 2
  let dirY := y - HEIGHT / 2
  let dirMag := Real.sqrt (dirX * dirX + dirY * dirY)
  let speed := 1 + 3 * (dirMag / (WIDTH / 2))
  { position := ⟨x, y⟩,
    velocity := ⟨dirY / dirMag * speed, (-dirX) / dirMag * speed⟩,
    trail := [], energy := 0, prevEnergy := 0, sparkle := false }

/-- addSpacecraft (lines 276-299): reset gesture inside Earth, otherwise
append a tangentially launched craft. -/
def addSpacecraft (x y : ℝ) (w : World) : World :=
  let dEarth := Real.sqrt ((x - WIDTH / 2) ^ 2 + (y - HEIGHT / 2) ^ 2)
  if dEarth < EARTH_RADIUS then
    { w with spacecrafts := [], sparkleEffects := [] }
  else
    { w with spacecrafts := w.spacecrafts ++ [spawnedCraft x y] }

/-- Moon state: the globals moonAngle, moonX, moonY, moonTrail. -/
structure MoonState where
  moonAngle : ℝ
  moonX : ℝ
  moonY : ℝ
  moonTrail : List Vector

/-- updateMoonPosition (lines 263-273). -/
def updateMoonPosition (m : MoonState) : MoonState :=
  let mx := WIDTH / 2 + MOON_DISTANCE * Real.cos m.moonAngle
  let my := HEIGHT / 2 + MOON_DISTANCE * Real.sin m.moonAngle
  let trail1 := m.moonTrail ++ [⟨mx, my⟩]
  { m with moonX := mx, moonY := my,
           moonTrail := if trail1.length > 360 then trail1.tail else trail1 }

/-- Aging of one explosion effect inside the loop (lines 428-429):
decrement life, recompute alpha as 255 * (life / 30.0). -/
def expAge1 (e : ExplosionEffect) : ExplosionEffect :=
  { e with life := e.life - 1, alpha := 255 * (((e.life - 1 : ℤ) : ℝ) / 30) }

/-- The explosion-aging pass of loop() (lines 426-435): every effect is aged
and the ones whose life fell to zero or below are removed.  (The C++ loop
walks indices backwards with erase; element-wise that is exactly this.) -/
def stepExplosions : List ExplosionEffect → List ExplosionEffect
  | [] => []
  | e :: rest =>
    if (expAge1 e).life ≤ 0 then stepExplosions rest
    else expAge1 e :: stepExplosions rest

/-- Aging of one sparkle effect (line 440). -/
def spkAge1 (e : SparkleEffect) : SparkleEffect := { e with life := e.life - 1 }

/-- The sparkle-aging pass of loop() (lines 438-446). -/
def stepSparkles : List SparkleEffect → List SparkleEffect
  | [] => []
  | e :: rest =>
    if (spkAge1 e).life ≤ 0 then stepSparkles rest
    else spkAge1 e :: stepSparkles rest

/-- k successive explosion-aging ticks. -/
def stepExplosionsIter : ℕ → List ExplosionEffect → List ExplosionEffect
  | 0, l => l
  | k + 1, l => stepExplosionsIter k (stepExplosions l)

/-- k successive sparkle-aging ticks. -/
def stepSparklesIter : ℕ → List SparkleEffect → List SparkleEffect
  | 0, l => l
  | k + 1, l => stepSparklesIter k (stepSparkles l)

/-- An explosion effect aged k times. -/
def expAgeK : ℕ → ExplosionEffect → ExplosionEffect
  | 0, e => e
  | k + 1, e => expAgeK k (expAge1 e)

/-- A sparkle effect aged k times. -/
def spkAgeK : ℕ → SparkleEffect → SparkleEffect
  | 0, e => e
  | k + 1, e => spkAgeK k (spkAge1 e)

/-- Size at which drawToSprite renders an explosion (line 332):
int size = effect.size * (1 - effect.life / 30.0), C truncation of a
nonnegative value, i.e. the floor. -/
def explosionDrawSize (e : ExplosionEffect) : ℤ :=
  ⌊(e.size : ℝ) * (1 - (e.life : ℝ) / 30)⌋

/-- The acceleration field as the spec words it: for each body the
acceleration is mu times the vector to the body divided by its cubed norm,
summed over Earth and Moon. -/
def specAcceleration (moonX moonY : ℝ) (pos : Vector) : Vector :=
  let rE := Vector.sub ⟨WIDTH / 2, HEIGHT / 2⟩ pos
  let rM := Vector.sub ⟨moonX, moonY⟩ pos
  Vector.add (Vector.mult rE (MU_EARTH / rE.mag ^ 3))
    (Vector.mult rM (MU_MOON / rM.mag ^ 3))

/-- Classical 4th-order Runge-Kutta with dt = 1 as the spec words it,
applied to dr/dt = v, dv/dt = a(r); returns (new position, new velocity). -/
def specRK4 (moonX moonY : ℝ) (r v : Vector) : Vector × Vector :=
  let a := fun p => specAcceleration moonX moonY p
  let k1v := a r
  let k1r := v
  let k2v := a (Vector.add r (Vector.mult k1r (1 / 2)))
  let k2r := Vector.add v (Vector.mult k1v (1 / 2))
  let k3v := a (Vector.add r (Vector.mult k2r (1 / 2)))
  let k3r := Vector.add v (Vector.mult k2v (1 / 2))
  let k4v := a (Vector.add r k3r)
  let k4r := Vector.add v k3v
  let dr := Vector.mult
    (Vector.add (Vector.add k1r (Vector.mult k2r 2)) (Vector.add (Vector.mult k3r 2) k4r))
    (1 / 6)
  let dv := Vector.mult
    (Vector.add (Vector.add k1v (Vector.mult k2v 2)) (Vector.add (Vector.mult k3v 2) k4v))
    (1 / 6)
  (Vector.add r dr, Vector.add v dv)

/-- The 90-degree rotation (x, y) to (y, -x) used for the tangential
launch velocity. -/
def rot90 (v : Vector) : Vector := ⟨v.y, -v.x⟩

/-! Helper lemmas shared by the claim theorems. -/

theorem sqrt_eval {a b : ℝ} (hb : 0 ≤ b) (h : a = b ^ 2) : Real.sqrt a = b := by
  rw [h]; exact Real.sqrt_sq hb

theorem Vector.mult_one (v : Vector) : Vector.mult v 1 = v := by
  ext <;> simp [Vector.mult]

theorem point_five : (0.5 : ℝ) = 1 / 2 := by norm_num

theorem calcAccel_eq_spec (moonX moonY : ℝ) (pos : Vector) :
    calculateAcceleration moonX moonY pos = specAcceleration moonX moonY pos := by
  unfold calculateAcceleration specAcceleration
  ext <;> simp [Vector.add, Vector.sub, Vector.mult] <;> ring_nf

theorem integrate_eq_specRK4 (moonX moonY : ℝ) (s : Spacecraft) :
    s.integrate moonX moonY =
      ((specRK4 moonX moonY s.position s.velocity).2,
       (specRK4 moonX moonY s.position s.velocity).1) := by
  unfold Spacecraft.integrate specRK4
  simp only [calcAccel_eq_spec, Vector.mult_one, point_five]

theorem update_noncollide (moonX moonY : ℝ) (explosionEffects : List ExplosionEffect)
    (sparkleEffects : List SparkleEffect) (s : Spacecraft)
    (hE : EARTH_RADIUS < s.distToEarth) (hM : MOON_RADIUS < s.distToMoon moonX moonY) :
    s.update moonX moonY explosionEffects sparkleEffects =
      if s.postEnergy moonX moonY - s.energy > 0.1 then
        { removed := false,
          craft := { position := (s.integrate moonX moonY).2,
                     velocity := (s.integrate moonX moonY).1,
                     trail := s.trailNext moonX moonY,
                     energy := s.postEnergy moonX moonY,
                     prevEnergy := s.energy,
                     sparkle := true },
          explosionEffects := explosionEffects,
          sparkleEffects := sparkleEffects ++
            [⟨(s.integrate moonX moonY).2.x, (s.integrate moonX moonY).2.y, 20⟩] }
      else
        { removed := false,
          craft := { position := (s.integrate moonX moonY).2,
                     velocity := (s.integrate moonX moonY).1,
                     trail := s.trailNext moonX moonY,
                     energy := s.postEnergy moonX moonY,
                     prevEnergy := s.energy,
                     sparkle := false },
          explosionEffects := explosionEffects,
          sparkleEffects := sparkleEffects } := by
  unfold Spacecraft.update
  rw [if_neg (not_le.mpr hE), if_neg (not_le.mpr hM)]

theorem stepExplosions_append (l1 l2 : List ExplosionEffect) :
    stepExplosions (l1 ++ l2) = stepExplosions l1 ++ stepExplosions l2 := by
  induction l1 with
  | nil => simp [stepExplosions]
  | cons e rest ih =>
    simp only [List.cons_append, stepExplosions, ih]
    split <;> simp [ih]

theorem stepSparkles_append (l1 l2 : List SparkleEffect) :
    stepSparkles (l1 ++ l2) = stepSparkles l1 ++ stepSparkles l2 := by
  induction l1 with
  | nil => simp [stepSparkles]
  | cons e rest ih =>
    simp only [List.cons_append, stepSparkles, ih]
    split <;> simp [ih]

theorem stepExplosions_eq_filter (l : List ExplosionEffect) :
    stepExplosions l = (l.map expAge1).filter fun e => decide (0 < e.life) := by
  induction l with
  | nil => simp [stepExplosions]
  | cons e rest ih =>
    simp only [stepExplosions, ih, List.map_cons, List.filter_cons]
    by_cases h : (expAge1 e).life ≤ 0
    · rw [if_pos h, if_neg (by simpa using h)]
    · rw [if_neg h, if_pos (by simpa using not_le.mp h)]

theorem stepSparkles_eq_filter (l : List SparkleEffect) :
    stepSparkles l = (l.map spkAge1).filter fun e => decide (0 < e.life) := by
  induction l with
  | nil => simp [stepSparkles]
  | cons e rest ih =>
    simp only [stepSparkles, ih, List.map_cons, List.filter_cons]
    by_cases h : (spkAge1 e).life ≤ 0
    · rw [if_pos h, if_neg (by simpa using h)]
    · rw [if_neg h, if_pos (by simpa using not_le.mp h)]

theorem expAgeK_life (k : ℕ) (e : ExplosionEffect) :
    (expAgeK k e).life = e.life - k := by
  induction k generalizing e with
  | zero => simp [expAgeK]
  | succ k ih =>
    rw [expAgeK, ih]
    simp [expAge1]
    ring

theorem spkAgeK_life (k : ℕ) (e : SparkleEffect) :
    (spkAgeK k e).life = e.life - k := by
  induction k generalizing e with
  | zero => simp [spkAgeK]
  | succ k ih =>
    rw [spkAgeK, ih]
    simp [spkAge1]
    ring

theorem stepExplosionsIter_singleton (k : ℕ) (l : List ExplosionEffect)
    (e : ExplosionEffect) (he : 0 < e.life) :
    stepExplosionsIter k (l ++ [e]) =
      stepExplosionsIter k l ++ (if (k : ℤ) < e.life then [expAgeK k e] else []) := by
  induction k generalizing l e with
  | zero =>
    simp only [stepExplosionsIter, Nat.cast_zero, expAgeK]
    rw [if_pos he]
  | succ k ih =>
    simp only [stepExplosionsIter, stepExplosions_append]
    by_cases h1 : (expAge1 e).life ≤ 0
    · have hstep : stepExplosions [e] = [] := by
        simp only [stepExplosions, if_pos h1]
      rw [hstep, List.append_nil]
      have hout : ¬ ((k + 1 : ℕ) : ℤ) < e.life := by
        have : e.life ≤ 1 := by
          have := h1
          simp only [expAge1] at this
          omega
        push_cast
        omega
      rw [if_neg hout, List.append_nil]
    · have hstep : stepExplosions [e] = [expAge1 e] := by
        simp only [stepExplosions, if_neg h1]
      rw [hstep]
      have hpos : 0 < (expAge1 e).life := not_le.mp h1
      rw [ih (stepExplosions l) (expAge1 e) hpos]
      have hlife : (expAge1 e).life = e.life - 1 := rfl
      by_cases hk : ((k + 1 : ℕ) : ℤ) < e.life
      · rw [if_pos (by rw [hlife]; push_cast at hk ⊢; omega), if_pos hk]
        rfl
      · rw [if_neg (by rw [hlife]; push_cast at hk ⊢; omega), if_neg hk]

theorem stepSparklesIter_singleton (k : ℕ) (l : List SparkleEffect)
    (e : SparkleEffect) (he : 0 < e.life) :
    stepSparklesIter k (l ++ [e]) =
      stepSparklesIter k l ++ (if (k : ℤ) < e.life then [spkAgeK k e] else []) := by
  induction k generalizing l e with
  | zero =>
    simp only [stepSparklesIter, Nat.cast_zero, spkAgeK]
    rw [if_pos he]
  | succ k ih =>
    simp only [stepSparklesIter, stepSparkles_append]
    by_cases h1 : (spkAge1 e).life ≤ 0
    · have hstep : stepSparkles [e] = [] := by
        simp only [stepSparkles, if_pos h1]
      rw [hstep, List.append_nil]
      have hout : ¬ ((k + 1 : ℕ) : ℤ) < e.life := by
        have : e.life ≤ 1 := by
          have := h1
          simp only [spkAge1] at this
          omega
        push_cast
        omega
      rw [if_neg hout, List.append_nil]
    · have hstep : stepSparkles [e] = [spkAge1 e] := by
        simp only [stepSparkles, if_neg h1]
      rw [hstep]
      have hpos : 0 < (spkAge1 e).life := not_le.mp h1
      rw [ih (stepSparkles l) (spkAge1 e) hpos]
      have hlife : (spkAge1 e).life = e.life - 1 := rfl
      by_cases hk : ((k + 1 : ℕ) : ℤ) < e.life
      · rw [if_pos (by rw [hlife]; push_cast at hk ⊢; omega), if_pos hk]
        rfl
      · rw [if_neg (by rw [hlife]; push_cast at hk ⊢; omega), if_neg hk]

/-! The claim theorems. -/

/-- C1: collision is tested on the pre-step position before any integration.
A craft whose pre-step position is within Earth's collision radius makes the
update return removed, append exactly one ExplosionEffect of size 15 and
life 30 at the craft's current position, and leave the craft state (hence
position and velocity) untouched; otherwise, within the Moon's collision
radius, the same with a size-10 effect. -/
theorem claim1_collision_pre_step (moonX moonY : ℝ) (expl : List ExplosionEffect)
    (spk : List SparkleEffect) (s : Spacecraft) :
    (s.distToEarth ≤ EARTH_RADIUS →
      s.update moonX moonY expl spk =
        { removed := true, craft := s,
          explosionEffects := expl ++ [⟨s.position.x, s.position.y, 15, 30, 255⟩],
          sparkleEffects := spk }) ∧
    (EARTH_RADIUS < s.distToEarth → s.distToMoon moonX moonY ≤ MOON_RADIUS →
      s.update moonX moonY expl spk =
        { removed := true, craft := s,
          explosionEffects := expl ++ [⟨s.position.x, s.position.y, 10, 30, 255⟩],
          sparkleEffects := spk }) := by
  constructor
  · intro h
    unfold Spacecraft.update
    rw [if_pos h]
  · intro h1 h2
    unfold Spacecraft.update
    rw [if_neg (not_le.mpr h1), if_pos h2]

/-- Witness for C1: a craft at the screen center collides with Earth; a
craft sitting on the Moon's center (Moon at (260,120)) collides with it. -/
theorem claim1_collision_pre_step_witness :
    (Spacecraft.update 260 120 [] [] ⟨⟨160, 120⟩, ⟨0, 0⟩, [], 0, 0, false⟩ =
      { removed := true, craft := ⟨⟨160, 120⟩, ⟨0, 0⟩, [], 0, 0, false⟩,
        explosionEffects := [⟨160, 120, 15, 30, 255⟩], sparkleEffects := [] }) ∧
    (Spacecraft.update 260 120 [] [] ⟨⟨260, 120⟩, ⟨0, 0⟩, [], 0, 0, false⟩ =
      { removed := true, craft := ⟨⟨260, 120⟩, ⟨0, 0⟩, [], 0, 0, false⟩,
        explosionEffects := [⟨260, 120, 10, 30, 255⟩], sparkleEffects := [] }) := by
  have hdE : Spacecraft.distToEarth ⟨⟨260, 120⟩, ⟨0, 0⟩, [], 0, 0, false⟩ = 100 := by
    unfold Spacecraft.distToEarth
    exact sqrt_eval (by norm_num) (by norm_num [WIDTH, HEIGHT])
  constructor
  · have h := (claim1_collision_pre_step 260 120 [] []
      ⟨⟨160, 120⟩, ⟨0, 0⟩, [], 0, 0, false⟩).1
      (by norm_num [Spacecraft.distToEarth, WIDTH, HEIGHT, EARTH_RADIUS, Real.sqrt_zero])
    simpa using h
  · have h := (claim1_collision_pre_step 260 120 [] []
      ⟨⟨260, 120⟩, ⟨0, 0⟩, [], 0, 0, false⟩).2
      (by rw [hdE]; norm_num [EARTH_RADIUS])
      (by norm_num [Spacecraft.distToMoon, MOON_RADIUS, Real.sqrt_zero])
    simpa using h

/-- C6 counterexample: the claim says a tap within Earth's collision radius
(distance at most EARTH_RADIUS, the collision test of the update) leaves 0
spacecraft; but the reset test of addSpacecraft is strict, so a tap at
distance exactly EARTH_RADIUS is within the collision radius yet creates a
spacecraft: starting from an empty world the result holds 1 craft, not 0. -/
theorem claim6_reset_counterexample :
    Real.sqrt ((WIDTH / 2 + 15 - WIDTH / 2) ^ 2 + (HEIGHT / 2 - HEIGHT / 2) ^ 2)
      ≤ EARTH_RADIUS ∧
    (addSpacecraft (WIDTH / 2 + 15) (HEIGHT / 2) ⟨[], [], []⟩).spacecrafts.length = 1 := by
  have hs : Real.sqrt ((WIDTH / 2 + 15 - WIDTH / 2) ^ 2 + (HEIGHT / 2 - HEIGHT / 2) ^ 2)
      = 15 := sqrt_eval (by norm_num) (by norm_num)
  refine ⟨by rw [hs]; norm_num [EARTH_RADIUS], ?_⟩
  have h2 : (addSpacecraft (WIDTH / 2 + 15) (HEIGHT / 2) ⟨[], [], []⟩).spacecrafts
      = [spawnedCraft (WIDTH / 2 + 15) (HEIGHT / 2)] := by
    simp only [addSpacecraft, hs]
    rw [if_neg (by norm_num [EARTH_RADIUS])]
    rfl
  rw [h2]
  rfl

/-- C6 (amended): a tap strictly within Earth's radius
(distance < EARTH_RADIUS, the strict reset test of addSpacecraft) leaves 0
spacecraft and 0 sparkle effects, the explosion effects untouched, and
creates no spacecraft; at distance exactly EARTH_RADIUS a craft is created
instead. -/
theorem claim6_reset_amended (w : World) (x y : ℝ)
    (h : Real.sqrt ((x - WIDTH / 2) ^ 2 + (y - HEIGHT / 2) ^ 2) < EARTH_RADIUS) :
    (addSpacecraft x y w).spacecrafts = [] ∧
    (addSpacecraft x y w).sparkleEffects = [] ∧
    (addSpacecraft x y w).explosionEffects = w.explosionEffects := by
  simp only [addSpacecraft]
  rw [if_pos h]
  exact ⟨rfl, rfl, rfl⟩

/-- Witness for the amended C6: a tap on the exact screen center resets a
world holding one craft, one sparkle and one explosion. -/
theorem claim6_reset_amended_witness :
    (addSpacecraft 160 120
      ⟨[⟨⟨0, 0⟩, ⟨0, 0⟩, [], 0, 0, false⟩], [⟨1, 2, 20⟩], [⟨3, 4, 15, 30, 255⟩]⟩).spacecrafts
      = [] ∧
    (addSpacecraft 160 120
      ⟨[⟨⟨0, 0⟩, ⟨0, 0⟩, [], 0, 0, false⟩], [⟨1, 2, 20⟩], [⟨3, 4, 15, 30, 255⟩]⟩).sparkleEffects
      = [] ∧
    (addSpacecraft 160 120
      ⟨[⟨⟨0, 0⟩, ⟨0, 0⟩, [], 0, 0, false⟩], [⟨1, 2, 20⟩], [⟨3, 4, 15, 30, 255⟩]⟩).explosionEffects
      = [⟨3, 4, 15, 30, 255⟩] :=
  claim6_reset_amended
    ⟨[⟨⟨0, 0⟩, ⟨0, 0⟩, [], 0, 0, false⟩], [⟨1, 2, 20⟩], [⟨3, 4, 15, 30, 255⟩]⟩ 160 120
    (by norm_num [WIDTH, HEIGHT, EARTH_RADIUS, Real.sqrt_zero])

/-- C7: a tap strictly outside Earth's collision radius appends exactly one
spacecraft at the tap point; its velocity is the 90-degree rotation
(x, y) to (y, -x) of the unit vector from Earth's center to the tap point,
scaled by speed 1 + 3 * (distance / (WIDTH/2)), and its magnitude equals
that speed. -/
theorem claim7_tap_spawn (w : World) (x y : ℝ)
    (h : EARTH_RADIUS < Real.sqrt ((x - WIDTH / 2) ^ 2 + (y - HEIGHT / 2) ^ 2)) :
    (addSpacecraft x y w).spacecrafts = w.spacecrafts ++ [spawnedCraft x y] ∧
    (addSpacecraft x y w).sparkleEffects = w.sparkleEffects ∧
    (addSpacecraft x y w).explosionEffects = w.explosionEffects ∧
    (spawnedCraft x y).position = ⟨x, y⟩ ∧
    (spawnedCraft x y).velocity =
      Vector.mult
        (rot90 ⟨(x - WIDTH / 2) /
            Real.sqrt ((x - WIDTH / 2) * (x - WIDTH / 2) + (y - HEIGHT / 2) * (y - HEIGHT / 2)),
          (y - HEIGHT / 2) /
            Real.sqrt ((x - WIDTH / 2) * (x - WIDTH / 2) + (y - HEIGHT / 2) * (y - HEIGHT / 2))⟩)
        (1 + 3 * (Real.sqrt ((x - WIDTH / 2) * (x - WIDTH / 2) + (y - HEIGHT / 2) * (y - HEIGHT / 2))
            / (WIDTH / 2))) ∧
    (spawnedCraft x y).velocity.mag =
      1 + 3 * (Real.sqrt ((x - WIDTH / 2) * (x - WIDTH / 2) + (y - HEIGHT / 2) * (y - HEIGHT / 2))
          / (WIDTH / 2)) := by
  have harg : (x - WIDTH / 2) ^ 2 + (y - HEIGHT / 2) ^ 2
      = (x - WIDTH / 2) * (x - WIDTH / 2) + (y - HEIGHT / 2) * (y - HEIGHT / 2) := by ring
  rw [harg] at h
  have hm0 : (0 : ℝ) <
      Real.sqrt ((x - WIDTH / 2) * (x - WIDTH / 2) + (y - HEIGHT / 2) * (y - HEIGHT / 2)) :=
    lt_trans (by norm_num [EARTH_RADIUS]) h
  refine ⟨?_, ?_, ?_, rfl, ?_, ?_⟩
  · simp only [addSpacecraft, harg]
    rw [if_neg (not_lt.mpr h.le)]
  · simp only [addSpacecraft, harg]
    rw [if_neg (not_lt.mpr h.le)]
  · simp only [addSpacecraft, harg]
    rw [if_neg (not_lt.mpr h.le)]
  · ext
    · simp [spawnedCraft, rot90, Vector.mult]
    · simp only [spawnedCraft, rot90, Vector.mult]
      ring
  · set A := x - WIDTH / 2 with hA
    set B := y - HEIGHT / 2 with hB
    set m := Real.sqrt (A * A + B * B) with hmdef
    set sp := 1 + 3 * (m / (WIDTH / 2)) with hspdef
    have hvel : (spawnedCraft x y).velocity = ⟨B / m * sp, (-A) / m * sp⟩ := rfl
    rw [hvel]
    have hmsq : m * m = A * A + B * B :=
      Real.mul_self_sqrt (add_nonneg (mul_self_nonneg A) (mul_self_nonneg B))
    have hmm : m * m ≠ 0 := (mul_pos hm0 hm0).ne'
    have hsp : (0 : ℝ) ≤ sp := by
      have hq : (0 : ℝ) ≤ m / (WIDTH / 2) := div_nonneg hm0.le (by norm_num [WIDTH])
      rw [hspdef]
      linarith
    unfold Vector.mag
    refine sqrt_eval hsp ?_
    calc (B / m * sp) * (B / m * sp) + ((-A) / m * sp) * ((-A) / m * sp)
        = (A * A + B * B) * (m * m)⁻¹ * sp ^ 2 := by ring
      _ = (m * m) * (m * m)⁻¹ * sp ^ 2 := by rw [hmsq]
      _ = sp ^ 2 := by rw [mul_inv_cancel₀ hmm]; ring

/-- Witness for C7: the tap at (WIDTH/2 + 50, HEIGHT/2) = (210, 120) lies
outside Earth, launches with x-velocity 0 (purely tangential, directly right
of Earth) and speed 1 + 3 * (50 / (WIDTH/2)). -/
theorem claim7_tap_spawn_witness :
    EARTH_RADIUS < Real.sqrt (((210 : ℝ) - WIDTH / 2) ^ 2 + ((120 : ℝ) - HEIGHT / 2) ^ 2) ∧
    (spawnedCraft 210 120).velocity.x = 0 ∧
    (spawnedCraft 210 120).velocity.mag =
      1 + 3 * (Real.sqrt (((210 : ℝ) - WIDTH / 2) * ((210 : ℝ) - WIDTH / 2) +
          ((120 : ℝ) - HEIGHT / 2) * ((120 : ℝ) - HEIGHT / 2)) / (WIDTH / 2)) := by
  have h : EARTH_RADIUS <
      Real.sqrt (((210 : ℝ) - WIDTH / 2) ^ 2 + ((120 : ℝ) - HEIGHT / 2) ^ 2) := by
    rw [sqrt_eval (b := 50) (by norm_num) (by norm_num [WIDTH, HEIGHT])]
    norm_num [EARTH_RADIUS]
  have hc := claim7_tap_spawn ⟨[], [], []⟩ 210 120 h
  refine ⟨h, ?_, hc.2.2.2.2.2⟩
  rw [hc.2.2.2.2.1]
  norm_num [rot90, Vector.mult, HEIGHT]

/-- C10: the reset test of addSpacecraft is strict while the collision test
of the update is not, so a tap at distance exactly EARTH_RADIUS creates a
spacecraft there, and its first update reports destroyed immediately with a
single size-15 Earth explosion and the craft state untouched (no
integration ever performed). -/
theorem claim10_boundary_tap (w : World) (x y moonX moonY : ℝ)
    (expl : List ExplosionEffect) (spk : List SparkleEffect)
    (h : Real.sqrt ((x - WIDTH / 2) ^ 2 + (y - HEIGHT / 2) ^ 2) = EARTH_RADIUS) :
    (addSpacecraft x y w).spacecrafts = w.spacecrafts ++ [spawnedCraft x y] ∧
    (spawnedCraft x y).update moonX moonY expl spk =
      { removed := true, craft := spawnedCraft x y,
        explosionEffects := expl ++ [⟨x, y, 15, 30, 255⟩],
        sparkleEffects := spk } := by
  constructor
  · simp only [addSpacecraft, h]
    rw [if_neg (lt_irrefl _)]
  · have hd : Spacecraft.distToEarth (spawnedCraft x y) ≤ EARTH_RADIUS := by
      have hpos : (spawnedCraft x y).position = ⟨x, y⟩ := rfl
      unfold Spacecraft.distToEarth
      rw [hpos]
      exact le_of_eq h
    unfold Spacecraft.update
    rw [if_pos hd]
    rfl

/-- C2: a non-colliding update step is exactly classical 4th-order
Runge-Kutta with dt = 1 on the system dr/dt = v, dv/dt = a(r), the four
stages sampling the acceleration field a(r), which is the sum over Earth and
Moon of mu times the vector toward the body divided by the cubed distance. -/
theorem claim2_rk4 (moonX moonY : ℝ) (expl : List ExplosionEffect)
    (spk : List SparkleEffect) (s : Spacecraft)
    (hE : EARTH_RADIUS < s.distToEarth) (hM : MOON_RADIUS < s.distToMoon moonX moonY) :
    (s.update moonX moonY expl spk).craft.position =
      (specRK4 moonX moonY s.position s.velocity).1 ∧
    (s.update moonX moonY expl spk).craft.velocity =
      (specRK4 moonX moonY s.position s.velocity).2 := by
  rw [update_noncollide moonX moonY expl spk s hE hM]
  have h := integrate_eq_specRK4 moonX moonY s
  split <;> constructor <;> simp [h]

/-- Witness for C2: a craft at (260,120) with the Moon at (60,120) collides
with nothing, so its update performs the spec's RK4 step. -/
theorem claim2_rk4_witness :
    (Spacecraft.update 60 120 [] [] ⟨⟨260, 120⟩, ⟨0, 0⟩, [], 0, 0, false⟩).craft.position =
      (specRK4 60 120 ⟨260, 120⟩ ⟨0, 0⟩).1 ∧
    (Spacecraft.update 60 120 [] [] ⟨⟨260, 120⟩, ⟨0, 0⟩, [], 0, 0, false⟩).craft.velocity =
      (specRK4 60 120 ⟨260, 120⟩ ⟨0, 0⟩).2 := by
  have hE : EARTH_RADIUS <
      Spacecraft.distToEarth ⟨⟨260, 120⟩, ⟨0, 0⟩, [], 0, 0, false⟩ := by
    unfold Spacecraft.distToEarth
    rw [sqrt_eval (b := 100) (by norm_num) (by norm_num [WIDTH, HEIGHT])]
    norm_num [EARTH_RADIUS]
  have hM : MOON_RADIUS <
      Spacecraft.distToMoon 60 120 ⟨⟨260, 120⟩, ⟨0, 0⟩, [], 0, 0, false⟩ := by
    unfold Spacecraft.distToMoon
    rw [sqrt_eval (b := 200) (by norm_num) (by norm_num)]
    norm_num [MOON_RADIUS]
  simpa using claim2_rk4 60 120 [] [] ⟨⟨260, 120⟩, ⟨0, 0⟩, [], 0, 0, false⟩ hE hM

/-- C3: effect lifecycle.  An effect added with positive life L survives
exactly the aging passes 0..L-1 and is gone from the pass L on (so it is
present in its collection for exactly L ticks, counting the spawn tick, and
absent on tick L+1); aging k times subtracts exactly k from life (strict
decrease by 1 per tick); and one aging pass is precisely mapping the
life-decrement over the list and removing the elements whose life fell to
zero or below.  Both effect kinds are covered. -/
theorem claim3_effect_lifetime (k : ℕ) (le : List ExplosionEffect) (e : ExplosionEffect)
    (ls : List SparkleEffect) (sp : SparkleEffect)
    (hel : 0 < e.life) (hsl : 0 < sp.life) :
    (stepExplosionsIter k (le ++ [e]) =
      stepExplosionsIter k le ++ (if (k : ℤ) < e.life then [expAgeK k e] else [])) ∧
    (stepSparklesIter k (ls ++ [sp]) =
      stepSparklesIter k ls ++ (if (k : ℤ) < sp.life then [spkAgeK k sp] else [])) ∧
    (expAgeK k e).life = e.life - k ∧
    (spkAgeK k sp).life = sp.life - k ∧
    stepExplosions le = (le.map expAge1).filter (fun a => decide (0 < a.life)) ∧
    stepSparkles ls = (ls.map spkAge1).filter (fun a => decide (0 < a.life)) :=
  ⟨stepExplosionsIter_singleton k le e hel, stepSparklesIter_singleton k ls sp hsl,
   expAgeK_life k e, spkAgeK_life k sp,
   stepExplosions_eq_filter le, stepSparkles_eq_filter ls⟩

/-- Witness for C3: an explosion spawned with life 30 and a sparkle with
life 20, checked after 30 aging passes (the explosion is gone). -/
theorem claim3_effect_lifetime_witness :
    0 < (⟨0, 0, 15, 30, 255⟩ : ExplosionEffect).life ∧
    0 < (⟨5, 6, 20⟩ : SparkleEffect).life ∧
    (stepExplosionsIter 30 ([] ++ [⟨0, 0, 15, 30, 255⟩]) =
      stepExplosionsIter 30 [] ++
        (if ((30 : ℕ) : ℤ) < (⟨0, 0, 15, 30, 255⟩ : ExplosionEffect).life
         then [expAgeK 30 ⟨0, 0, 15, 30, 255⟩] else [])) ∧
    (stepSparklesIter 30 ([] ++ [⟨5, 6, 20⟩]) =
      stepSparklesIter 30 [] ++
        (if ((30 : ℕ) : ℤ) < (⟨5, 6, 20⟩ : SparkleEffect).life
         then [spkAgeK 30 ⟨5, 6, 20⟩] else [])) ∧
    (expAgeK 30 (⟨0, 0, 15, 30, 255⟩ : ExplosionEffect)).life =
      (⟨0, 0, 15, 30, 255⟩ : ExplosionEffect).life - (30 : ℕ) ∧
    (spkAgeK 30 (⟨5, 6, 20⟩ : SparkleEffect)).life =
      (⟨5, 6, 20⟩ : SparkleEffect).life - (30 : ℕ) := by
  have h := claim3_effect_lifetime 30 [] ⟨0, 0, 15, 30, 255⟩ [] ⟨5, 6, 20⟩
    (by norm_num) (by norm_num)
  exact ⟨by norm_num, by norm_num, h.1, h.2.1, h.2.2.1, h.2.2.2.1⟩

/-- C4: a craft surviving the collision tests saves prevEnergy = energy,
integrates, appends the new position to the trail with FIFO eviction over
the cap, recomputes its energy, and spawns one life-20 SparkleEffect at the
new position with the sparkle flag set exactly when the energy increase
exceeds 0.1, clearing the flag and spawning nothing otherwise. -/
theorem claim4_survivor_bookkeeping (moonX moonY : ℝ) (expl : List ExplosionEffect)
    (spk : List SparkleEffect) (s : Spacecraft)
    (hE : EARTH_RADIUS < s.distToEarth) (hM : MOON_RADIUS < s.distToMoon moonX moonY) :
    (s.update moonX moonY expl spk).removed = false ∧
    (s.update moonX moonY expl spk).craft.prevEnergy = s.energy ∧
    (s.update moonX moonY expl spk).craft.position = (s.integrate moonX moonY).2 ∧
    (s.update moonX moonY expl spk).craft.velocity = (s.integrate moonX moonY).1 ∧
    (s.update moonX moonY expl spk).craft.trail =
      (if (s.trail ++ [(s.integrate moonX moonY).2]).length > TRAIL_LENGTH
       then (s.trail ++ [(s.integrate moonX moonY).2]).tail
       else s.trail ++ [(s.integrate moonX moonY).2]) ∧
    (s.update moonX moonY expl spk).craft.energy = s.postEnergy moonX moonY ∧
    (s.update moonX moonY expl spk).explosionEffects = expl ∧
    (s.postEnergy moonX moonY - s.energy > 0.1 →
      (s.update moonX moonY expl spk).craft.sparkle = true ∧
      (s.update moonX moonY expl spk).sparkleEffects =
        spk ++ [⟨(s.integrate moonX moonY).2.x, (s.integrate moonX moonY).2.y, 20⟩]) ∧
    (¬ s.postEnergy moonX moonY - s.energy > 0.1 →
      (s.update moonX moonY expl spk).craft.sparkle = false ∧
      (s.update moonX moonY expl spk).sparkleEffects = spk) := by
  rw [update_noncollide moonX moonY expl spk s hE hM]
  by_cases hinc : s.postEnergy moonX moonY - s.energy > 0.1
  · rw [if_pos hinc]
    exact ⟨rfl, rfl, rfl, rfl, rfl, rfl, rfl, fun a => ⟨rfl, rfl⟩, fun hc => absurd hinc hc⟩
  · rw [if_neg hinc]
    exact ⟨rfl, rfl, rfl, rfl, rfl, rfl, rfl, fun hc => absurd hc hinc, fun a => ⟨rfl, rfl⟩⟩

/-- Witness for C4: the non-colliding craft at (260,120), Moon at (60,120). -/
theorem claim4_survivor_bookkeeping_witness :
    (Spacecraft.update 60 120 [] [] ⟨⟨260, 120⟩, ⟨0, 0⟩, [], 0, 0, false⟩).removed = false ∧
    (Spacecraft.update 60 120 [] []
        ⟨⟨260, 120⟩, ⟨0, 0⟩, [], 0, 0, false⟩).craft.prevEnergy = 0 ∧
    (Spacecraft.update 60 120 [] [] ⟨⟨260, 120⟩, ⟨0, 0⟩, [], 0, 0, false⟩).craft.trail =
      [(Spacecraft.integrate 60 120 ⟨⟨260, 120⟩, ⟨0, 0⟩, [], 0, 0, false⟩).2] := by
  have hE : EARTH_RADIUS <
      Spacecraft.distToEarth ⟨⟨260, 120⟩, ⟨0, 0⟩, [], 0, 0, false⟩ := by
    unfold Spacecraft.distToEarth
    rw [sqrt_eval (b := 100) (by norm_num) (by norm_num [WIDTH, HEIGHT])]
    norm_num [EARTH_RADIUS]
  have hM : MOON_RADIUS <
      Spacecraft.distToMoon 60 120 ⟨⟨260, 120⟩, ⟨0, 0⟩, [], 0, 0, false⟩ := by
    unfold Spacecraft.distToMoon
    rw [sqrt_eval (b := 200) (by norm_num) (by norm_num)]
    norm_num [MOON_RADIUS]
  have h := claim4_survivor_bookkeeping 60 120 [] []
    ⟨⟨260, 120⟩, ⟨0, 0⟩, [], 0, 0, false⟩ hE hM
  refine ⟨h.1, by simpa using h.2.1, ?_⟩
  have ht := h.2.2.2.2.1
  simpa [TRAIL_LENGTH] using ht

/-- C5: after a non-colliding update the craft's energy is the
Earth-centered specific orbital energy (half the squared speed minus
MU_EARTH over the distance to Earth's center, both taken from the post-step
state), and the rendered classification of that craft is bound exactly when
its energy is negative. -/
theorem claim5_energy_classification (moonX moonY : ℝ) (expl : List ExplosionEffect)
    (spk : List SparkleEffect) (s : Spacecraft)
    (hE : EARTH_RADIUS < s.distToEarth) (hM : MOON_RADIUS < s.distToMoon moonX moonY) :
    ((s.update moonX moonY expl spk).craft.energy =
      1 / 2 * ((s.update moonX moonY expl spk).craft.velocity.mag) ^ 2 -
        MU_EARTH / Real.sqrt
          (((s.update moonX moonY expl spk).craft.position.x - WIDTH / 2) ^ 2 +
           ((s.update moonX moonY expl spk).craft.position.y - HEIGHT / 2) ^ 2)) ∧
    ((s.update moonX moonY expl spk).craft.orbitColor = BOUND_ORBIT_COLOR ↔
      (s.update moonX moonY expl spk).craft.energy < 0) := by
  have hcolor : ∀ t : Spacecraft, (t.orbitColor = BOUND_ORBIT_COLOR ↔ t.energy < 0) := by
    intro t
    unfold Spacecraft.orbitColor
    by_cases h : t.energy < 0
    · rw [if_pos h]
      simp [h]
    · rw [if_neg h]
      constructor
      · intro hc
        exact absurd hc (by norm_num [BOUND_ORBIT_COLOR, ESCAPE_ORBIT_COLOR, color565])
      · intro hc
        exact absurd hc h
  refine ⟨?_, hcolor _⟩
  rw [update_noncollide moonX moonY expl spk s hE hM]
  split <;>
    · show Spacecraft.postEnergy moonX moonY s = _
      unfold Spacecraft.postEnergy
      ring_nf

/-- Witness for C5: the non-colliding craft at (260,120), Moon at (60,120). -/
theorem claim5_energy_classification_witness :
    ((Spacecraft.update 60 120 [] [] ⟨⟨260, 120⟩, ⟨0, 0⟩, [], 0, 0, false⟩).craft.energy =
      1 / 2 * ((Spacecraft.update 60 120 [] []
          ⟨⟨260, 120⟩, ⟨0, 0⟩, [], 0, 0, false⟩).craft.velocity.mag) ^ 2 -
        MU_EARTH / Real.sqrt
          (((Spacecraft.update 60 120 [] []
              ⟨⟨260, 120⟩, ⟨0, 0⟩, [], 0, 0, false⟩).craft.position.x - WIDTH / 2) ^ 2 +
           ((Spacecraft.update 60 120 [] []
              ⟨⟨260, 120⟩, ⟨0, 0⟩, [], 0, 0, false⟩).craft.position.y - HEIGHT / 2) ^ 2)) ∧
    ((Spacecraft.update 60 120 [] []
        ⟨⟨260, 120⟩, ⟨0, 0⟩, [], 0, 0, false⟩).craft.orbitColor = BOUND_ORBIT_COLOR ↔
      (Spacecraft.update 60 120 [] []
        ⟨⟨260, 120⟩, ⟨0, 0⟩, [], 0, 0, false⟩).craft.energy < 0) := by
  have hE : EARTH_RADIUS <
      Spacecraft.distToEarth ⟨⟨260, 120⟩, ⟨0, 0⟩, [], 0, 0, false⟩ := by
    unfold Spacecraft.distToEarth
    rw [sqrt_eval (b := 100) (by norm_num) (by norm_num [WIDTH, HEIGHT])]
    norm_num [EARTH_RADIUS]
  have hM : MOON_RADIUS <
      Spacecraft.distToMoon 60 120 ⟨⟨260, 120⟩, ⟨0, 0⟩, [], 0, 0, false⟩ := by
    unfold Spacecraft.distToMoon
    rw [sqrt_eval (b := 200) (by norm_num) (by norm_num)]
    norm_num [MOON_RADIUS]
  exact claim5_energy_classification 60 120 [] []
    ⟨⟨260, 120⟩, ⟨0, 0⟩, [], 0, 0, false⟩ hE hM

/-- Bounded FIFO trail update: push one point, evict the head when the cap
is exceeded; the cap is preserved. -/
theorem trailCap {α : Type} (n : ℕ) (l : List α) (p : α) (h : l.length ≤ n) :
    (if (l ++ [p]).length > n then (l ++ [p]).tail else l ++ [p]).length ≤ n := by
  by_cases hc : (l ++ [p]).length > n
  · rw [if_pos hc]
    simp only [List.length_tail, List.length_append, List.length_singleton]
    omega
  · rw [if_neg hc]
    omega

/-- C8: trail caps.  Any craft whose trail respects the cap of 50 still does
after its update, and the Moon trail respects its cap of 360 after
updateMoonPosition; in both cases the maintenance is FIFO: the new point is
appended and the oldest point is dropped exactly when the cap would be
exceeded. -/
theorem claim8_trail_caps (moonX moonY : ℝ) (expl : List ExplosionEffect)
    (spk : List SparkleEffect) (s : Spacecraft) (m : MoonState)
    (h1 : s.trail.length ≤ TRAIL_LENGTH) (h2 : m.moonTrail.length ≤ 360) :
    (s.update moonX moonY expl spk).craft.trail.length ≤ TRAIL_LENGTH ∧
    (updateMoonPosition m).moonTrail.length ≤ 360 ∧
    (EARTH_RADIUS < s.distToEarth → MOON_RADIUS < s.distToMoon moonX moonY →
      (s.update moonX moonY expl spk).craft.trail =
        (if (s.trail ++ [(s.integrate moonX moonY).2]).length > TRAIL_LENGTH
         then (s.trail ++ [(s.integrate moonX moonY).2]).tail
         else s.trail ++ [(s.integrate moonX moonY).2])) ∧
    (updateMoonPosition m).moonTrail =
      (if (m.moonTrail ++ [(⟨WIDTH / 2 + MOON_DISTANCE * Real.cos m.moonAngle,
            HEIGHT / 2 + MOON_DISTANCE * Real.sin m.moonAngle⟩ : Vector)]).length > 360
       then (m.moonTrail ++ [(⟨WIDTH / 2 + MOON_DISTANCE * Real.cos m.moonAngle,
            HEIGHT / 2 + MOON_DISTANCE * Real.sin m.moonAngle⟩ : Vector)]).tail
       else m.moonTrail ++ [(⟨WIDTH / 2 + MOON_DISTANCE * Real.cos m.moonAngle,
            HEIGHT / 2 + MOON_DISTANCE * Real.sin m.moonAngle⟩ : Vector)]) := by
  refine ⟨?_, ?_, ?_, rfl⟩
  · unfold Spacecraft.update
    split_ifs
    · exact h1
    · exact h1
    · exact trailCap TRAIL_LENGTH s.trail (s.integrate moonX moonY).2 h1
    · exact trailCap TRAIL_LENGTH s.trail (s.integrate moonX moonY).2 h1
  · exact trailCap 360 m.moonTrail
      (⟨WIDTH / 2 + MOON_DISTANCE * Real.cos m.moonAngle,
        HEIGHT / 2 + MOON_DISTANCE * Real.sin m.moonAngle⟩ : Vector) h2
  · intro hE hM
    rw [update_noncollide moonX moonY expl spk s hE hM]
    split <;> rfl

/-- Witness for C8: a craft with an empty trail at the screen center and a
Moon state with an empty trail. -/
theorem claim8_trail_caps_witness :
    (⟨⟨160, 120⟩, ⟨0, 0⟩, [], 0, 0, false⟩ : Spacecraft).trail.length ≤ TRAIL_LENGTH ∧
    (⟨0, 0, 0, []⟩ : MoonState).moonTrail.length ≤ 360 ∧
    (Spacecraft.update 260 120 [] []
      ⟨⟨160, 120⟩, ⟨0, 0⟩, [], 0, 0, false⟩).craft.trail.length ≤ TRAIL_LENGTH ∧
    (updateMoonPosition ⟨0, 0, 0, []⟩).moonTrail.length ≤ 360 := by
  have h := claim8_trail_caps 260 120 [] [] ⟨⟨160, 120⟩, ⟨0, 0⟩, [], 0, 0, false⟩
    ⟨0, 0, 0, []⟩ (by simp [TRAIL_LENGTH]) (by simp)
  exact ⟨by simp [TRAIL_LENGTH], by simp, h.1, h.2.1⟩

/-- C9: on each aging pass every surviving explosion effect's alpha is
recomputed as the linear function 255 - 255*t of the fraction
t = 1 - life/30, and drawToSprite renders it at the integer part of the
linear function size*t of the same fraction. -/
theorem claim9_explosion_linear (l : List ExplosionEffect) (e : ExplosionEffect)
    (h : e ∈ stepExplosions l) :
    e.alpha = 255 - 255 * (1 - (e.life : ℝ) / 30) ∧
    explosionDrawSize e = ⌊(e.size : ℝ) * (1 - (e.life : ℝ) / 30)⌋ := by
  refine ⟨?_, rfl⟩
  rw [stepExplosions_eq_filter] at h
  have h2 := (List.mem_filter.mp h).1
  obtain ⟨e0, _, he0⟩ := List.mem_map.mp h2
  rw [← he0]
  show (expAge1 e0).alpha = 255 - 255 * (1 - ((expAge1 e0).life : ℝ) / 30)
  simp only [expAge1]
  push_cast
  ring

/-- Witness for C9: the explosion spawned with size 15 and life 30, after
one aging pass. -/
theorem claim9_explosion_linear_witness :
    expAge1 (⟨0, 0, 15, 30, 255⟩ : ExplosionEffect) ∈
      stepExplosions [⟨0, 0, 15, 30, 255⟩] ∧
    (expAge1 (⟨0, 0, 15, 30, 255⟩ : ExplosionEffect)).alpha =
      255 - 255 * (1 - ((expAge1 (⟨0, 0, 15, 30, 255⟩ : ExplosionEffect)).life : ℝ) / 30) ∧
    explosionDrawSize (expAge1 (⟨0, 0, 15, 30, 255⟩ : ExplosionEffect)) =
      ⌊((expAge1 (⟨0, 0, 15, 30, 255⟩ : ExplosionEffect)).size : ℝ) *
        (1 - ((expAge1 (⟨0, 0, 15, 30, 255⟩ : ExplosionEffect)).life : ℝ) / 30)⌋ := by
  have hm : expAge1 (⟨0, 0, 15, 30, 255⟩ : ExplosionEffect) ∈
      stepExplosions [⟨0, 0, 15, 30, 255⟩] := by
    have hstep : stepExplosions [(⟨0, 0, 15, 30, 255⟩ : ExplosionEffect)] =
        [expAge1 ⟨0, 0, 15, 30, 255⟩] := by
      simp only [stepExplosions]
      rw [if_neg (by norm_num [expAge1])]
    rw [hstep]
    exact List.mem_singleton.mpr rfl
  have h := claim9_explosion_linear [⟨0, 0, 15, 30, 255⟩]
    (expAge1 ⟨0, 0, 15, 30, 255⟩) hm
  exact ⟨hm, h.1, h.2⟩

/-- Witness for C10: the tap at (175, 120), at distance exactly 15 from the
center, creates a craft destroyed by its first update. -/
theorem claim10_boundary_tap_witness :
    (addSpacecraft 175 120 ⟨[], [], []⟩).spacecrafts = [spawnedCraft 175 120] ∧
    Spacecraft.update 260 120 [] [] (spawnedCraft 175 120) =
      { removed := true, craft := spawnedCraft 175 120,
        explosionEffects := [⟨175, 120, 15, 30, 255⟩], sparkleEffects := [] } := by
  have h := claim10_boundary_tap ⟨[], [], []⟩ 175 120 260 120 [] []
    (sqrt_eval (by norm_num [EARTH_RADIUS]) (by norm_num [WIDTH, HEIGHT, EARTH_RADIUS]))
  simpa using h

end SpaceOrbit
